import Mathlib

/-!
Verification of the selection-counter widget in `src/ТЗ приложение/js/main.js`.

The script runs once on `DOMContentLoaded`:
* it looks up the `.history-form` element and exits silently if absent;
* it snapshots all `input[type="checkbox"][name="log_ids"]` inside the form;
* it optionally locates `#select_all_logs` inside the form;
* it locates the counter node via `document.querySelector(".selected-count")`
  (a document-wide search) and creates/styles/appends one if none exists;
* `updateCounter` counts checked snapshot boxes and overwrites the counter
  node's `textContent` with one of three Russian strings;
* change listeners re-invoke `updateCounter`; the select-all listener first
  copies its own `checked` value onto every snapshot checkbox.

We embed the DOM shallowly: a document is three lists of elements in document
order (before the form, the form's descendants, after the form), an element is
a record of the attributes the script reads or writes, and references held by
the script are positions (`Loc`) into those lists.
-/

namespace TZWidget

/-- A DOM element, restricted to the attributes `main.js` reads or writes.
`className` models the `class` attribute (possibly several space-separated
class names), `typeAttr`/`nameAttr` the `type`/`name` attributes of inputs,
and the three `style*` fields the inline styles the script assigns. -/
structure Elem where
  tag : String
  className : String
  idAttr : String
  typeAttr : String
  nameAttr : String
  checked : Bool
  textContent : String
  styleMarginTop : String
  styleFontSize : String
  styleColor : String
deriving DecidableEq, Repr

/-- The document: whether a `.history-form` element is present, and the
elements in document order, split into those before the form, the form's
descendants, and those after the form. -/
structure Doc where
  hasForm : Bool
  pre : List Elem
  formChildren : List Elem
  post : List Elem
deriving DecidableEq, Repr

/-- A reference to an element: its position in one of the three regions. -/
inductive Loc where
  | pre (i : Nat)
  | form (i : Nat)
  | post (i : Nat)
deriving DecidableEq, Repr

/-- Dereference a `Loc`. -/
def elemAt? (d : Doc) : Loc → Option Elem
  | Loc.pre i => d.pre.get? i
  | Loc.form i => d.formChildren.get? i
  | Loc.post i => d.post.get? i

/-- Replace the element at index `i` by `f` of it; out-of-range is a no-op. -/
def modifyAt : List Elem → Nat → (Elem → Elem) → List Elem
  | [], _, _ => []
  | e :: rest, 0, f => f e :: rest
  | e :: rest, Nat.succ n, f => e :: modifyAt rest n f

/-- Apply `f` to the element a `Loc` refers to. -/
def modifyLoc (d : Doc) (l : Loc) (f : Elem → Elem) : Doc :=
  match l with
  | Loc.pre i => { d with pre := modifyAt d.pre i f }
  | Loc.form i => { d with formChildren := modifyAt d.formChildren i f }
  | Loc.post i => { d with post := modifyAt d.post i f }

/-- `counter.textContent = s`. -/
def setText (d : Doc) (l : Loc) (s : String) : Doc :=
  modifyLoc d l (fun e => { e with textContent := s })

/-- `cb.checked = b`. -/
def setChecked (d : Doc) (l : Loc) (b : Bool) : Doc :=
  modifyLoc d l (fun e => { e with checked := b })

/-- The `checked` property read through a reference (`false` when dangling;
the script never holds a dangling reference). -/
def checkedAt (d : Doc) (l : Loc) : Bool :=
  match elemAt? d l with
  | some e => e.checked
  | none => false

/-- Split a character list at spaces: the `class` attribute is a
space-separated token list. -/
def splitOnSpaces : List Char → List (List Char)
  | [] => [[]]
  | c :: rest =>
    if c = ' ' then [] :: splitOnSpaces rest
    else
      match splitOnSpaces rest with
      | [] => [[c]]
      | chunk :: chunks => (c :: chunk) :: chunks

/-- CSS class-selector match: the element's class token list contains `c`. -/
def hasClass (e : Elem) (c : String) : Bool :=
  (splitOnSpaces e.className.data).contains c.data

/-- Matches `'input[type="checkbox"][name="log_ids"]'`. -/
def isLogIdsCheckbox (e : Elem) : Bool :=
  e.tag == "input" && e.typeAttr == "checkbox" && e.nameAttr == "log_ids"

/-- Index of the first element satisfying `p`, in list order
(the `querySelector` discipline). -/
def findIdxFrom (p : Elem → Bool) : List Elem → Option Nat
  | [] => none
  | e :: rest => if p e then some 0 else (findIdxFrom p rest).map (· + 1)

/-- `historyForm.querySelectorAll('input[type="checkbox"][name="log_ids"]')`:
the ordered snapshot of checkbox references inside the form. -/
def checkboxLocs (d : Doc) : List Loc :=
  ((List.range d.formChildren.length).filter
    (fun i =>
      match d.formChildren.get? i with
      | some e => isLogIdsCheckbox e
      | none => false)).map Loc.form

/-- `historyForm.querySelector("#select_all_logs")`. -/
def findSelectAll (d : Doc) : Option Loc :=
  (findIdxFrom (fun e => e.idAttr == "select_all_logs") d.formChildren).map Loc.form

/-- `document.querySelector(".selected-count")`: first match over the whole
document, in document order (before-form region, then the form's descendants,
then the after-form region). -/
def findCounterLoc (d : Doc) : Option Loc :=
  match findIdxFrom (fun e => hasClass e "selected-count") d.pre with
  | some i => some (Loc.pre i)
  | none =>
    match findIdxFrom (fun e => hasClass e "selected-count") d.formChildren with
    | some i => some (Loc.form i)
    | none => (findIdxFrom (fun e => hasClass e "selected-count") d.post).map Loc.post

/-- The element built by the create branch: `document.createElement("div")`
followed by the class and the three inline style assignments. -/
def newCounterElem : Elem :=
  { tag := "div"
    className := "selected-count"
    idAttr := ""
    typeAttr := ""
    nameAttr := ""
    checked := false
    textContent := ""
    styleMarginTop := "0.4rem"
    styleFontSize := "0.8rem"
    styleColor := "rgba(209, 213, 219, 0.9)" }

/-- `checkboxes.filter(cb => cb.checked).length`. -/
def checkedCount (d : Doc) (locs : List Loc) : Nat :=
  (locs.filter (fun l => checkedAt d l)).length

/-- The three-way string of `updateCounter`'s `if`/`else if`/`else`. -/
def counterText (n : Nat) : String :=
  if n = 0 then "Ни одной записи не выбрано."
  else if n = 1 then "Выбрана 1 запись для включения в ТЗ."
  else "Выбрано " ++ toString n ++ " записей для включения в ТЗ."

/-- The references the script closes over after initialization: the checkbox
snapshot, the optional select-all control, and the counter node. Its
existence records that the change listeners were registered. -/
structure Widget where
  cbLocs : List Loc
  selectAllLoc : Option Loc
  counterLoc : Loc
deriving DecidableEq, Repr

/-- The `updateCounter` closure: recount and overwrite the counter's text. -/
def updateCounter (d : Doc) (w : Widget) : Doc :=
  setText d w.counterLoc (counterText (checkedCount d w.cbLocs))

/-- The `DOMContentLoaded` handler. Returns the document after initialization
and, when the form was found, the widget whose listeners were registered;
`(d, none)` is the silent early return. The unused
`historyForm.querySelector(".table-history")` binding is a pure read and is
not modelled. -/
def init (d : Doc) : Doc × Option Widget :=
  if d.hasForm then
    let cbs := checkboxLocs d
    let sa := findSelectAll d
    match findCounterLoc d with
    | some loc =>
      let w : Widget := ⟨cbs, sa, loc⟩
      (updateCounter d w, some w)
    | none =>
      let w : Widget := ⟨cbs, sa, Loc.form d.formChildren.length⟩
      let d1 : Doc := { d with formChildren := d.formChildren ++ [newCounterElem] }
      (updateCounter d1 w, some w)
  else (d, none)

/-- The select-all change listener body, run after the browser has already
updated the control's own `checked`. The second component is ghost
bookkeeping: the number of `updateCounter` invocations the handler performs
(the loop body contains none; one call follows the loop). -/
def selectAllHandler (d : Doc) (w : Widget) (loc : Loc) : Doc × Nat :=
  let v := checkedAt d loc
  let d1 := w.cbLocs.foldl (fun acc l => setChecked acc l v) d
  (updateCounter d1 w, 1)

/-- User-driven events after initialization: toggling the `i`-th snapshot
checkbox to `b`, or toggling the select-all control to `b`. -/
inductive Ev where
  | toggle (i : Nat) (b : Bool)
  | selectAllToggle (b : Bool)
deriving DecidableEq, Repr

/-- One event: the browser flips the control's `checked`, then the registered
listener runs. Events on absent controls (an out-of-range snapshot index, or
select-all when none was found) do not occur and are no-ops. -/
def step (w : Widget) (d : Doc) : Ev → Doc
  | Ev.toggle i b =>
    match w.cbLocs.get? i with
    | some loc => updateCounter (setChecked d loc b) w
    | none => d
  | Ev.selectAllToggle b =>
    match w.selectAllLoc with
    | some loc => (selectAllHandler (setChecked d loc b) w loc).1
    | none => d

/-- Run a sequence of events. -/
def run (w : Widget) (d : Doc) (evs : List Ev) : Doc :=
  evs.foldl (step w) d

/-- The counter node's displayed text, read through the widget's reference. -/
def readCounter (d : Doc) (w : Widget) : Option String :=
  (elemAt? d w.counterLoc).map (fun e => e.textContent)

/-! ### Basic lemmas about the DOM model -/

theorem modifyAt_length (l : List Elem) (i : Nat) (f : Elem → Elem) :
    (modifyAt l i f).length = l.length := by
  induction l generalizing i with
  | nil => rfl
  | cons e rest ih =>
    cases i with
    | zero => rfl
    | succ n => simp [modifyAt, ih]

theorem get?_modifyAt_self (l : List Elem) (i : Nat) (f : Elem → Elem) :
    (modifyAt l i f).get? i = (l.get? i).map f := by
  induction l generalizing i with
  | nil => cases i <;> rfl
  | cons e rest ih =>
    cases i with
    | zero => rfl
    | succ n => simp only [modifyAt, List.get?]; exact ih n

theorem get?_modifyAt_ne (l : List Elem) (i j : Nat) (f : Elem → Elem) (h : i ≠ j) :
    (modifyAt l i f).get? j = l.get? j := by
  induction l generalizing i j with
  | nil => cases i <;> rfl
  | cons e rest ih =>
    cases i with
    | zero =>
      cases j with
      | zero => exact absurd rfl h
      | succ m => rfl
    | succ n =>
      cases j with
      | zero => rfl
      | succ m =>
        simp only [modifyAt, List.get?]
        exact ih n m (fun hc => h (by rw [hc]))

theorem modifyAt_modifyAt (l : List Elem) (i : Nat) (f g : Elem → Elem) :
    modifyAt (modifyAt l i f) i g = modifyAt l i (fun e => g (f e)) := by
  induction l generalizing i with
  | nil => rfl
  | cons e rest ih =>
    cases i with
    | zero => rfl
    | succ n => simp [modifyAt, ih]

theorem modifyAt_append_length (l : List Elem) (a : Elem) (f : Elem → Elem) :
    modifyAt (l ++ [a]) l.length f = l ++ [f a] := by
  induction l with
  | nil => rfl
  | cons e rest ih => simp [modifyAt, ih]

theorem get?_append_length (l : List Elem) (a : Elem) :
    (l ++ [a]).get? l.length = some a := by
  induction l with
  | nil => rfl
  | cons e rest ih => exact ih

theorem elemAt?_modifyLoc_self (d : Doc) (l : Loc) (f : Elem → Elem) :
    elemAt? (modifyLoc d l f) l = (elemAt? d l).map f := by
  cases l with
  | pre i => exact get?_modifyAt_self d.pre i f
  | form i => exact get?_modifyAt_self d.formChildren i f
  | post i => exact get?_modifyAt_self d.post i f

theorem elemAt?_modifyLoc_ne (d : Doc) (l l' : Loc) (f : Elem → Elem) (h : l ≠ l') :
    elemAt? (modifyLoc d l f) l' = elemAt? d l' := by
  cases l <;> cases l' <;>
    simp only [elemAt?, modifyLoc] <;>
    first
      | rfl
      | (apply get?_modifyAt_ne; intro hc; exact h (by rw [hc]))

theorem isSome_elemAt?_modifyLoc (d : Doc) (l l' : Loc) (f : Elem → Elem) :
    (elemAt? (modifyLoc d l f) l').isSome = (elemAt? d l').isSome := by
  by_cases h : l = l'
  · subst h; rw [elemAt?_modifyLoc_self]; cases elemAt? d l <;> rfl
  · rw [elemAt?_modifyLoc_ne d l l' f h]

theorem checkedAt_modifyLoc_of_preserves (d : Doc) (l l' : Loc) (f : Elem → Elem)
    (hf : ∀ e, (f e).checked = e.checked) :
    checkedAt (modifyLoc d l f) l' = checkedAt d l' := by
  by_cases h : l = l'
  · subst h
    unfold checkedAt
    rw [elemAt?_modifyLoc_self]
    cases elemAt? d l with
    | none => rfl
    | some e => simp [hf]
  · unfold checkedAt
    rw [elemAt?_modifyLoc_ne d l l' f h]

theorem checkedAt_setText (d : Doc) (l l' : Loc) (s : String) :
    checkedAt (setText d l s) l' = checkedAt d l' :=
  checkedAt_modifyLoc_of_preserves d l l' _ (fun _ => rfl)

theorem checkedCount_setText (d : Doc) (l : Loc) (s : String) (locs : List Loc) :
    checkedCount (setText d l s) locs = checkedCount d locs := by
  unfold checkedCount
  congr 1
  exact List.filter_congr (fun x _ => by rw [checkedAt_setText])

theorem checkedAt_setChecked_self (d : Doc) (l : Loc) (b : Bool)
    (h : (elemAt? d l).isSome) :
    checkedAt (setChecked d l b) l = b := by
  unfold checkedAt setChecked
  rw [elemAt?_modifyLoc_self]
  cases hd : elemAt? d l with
  | none => rw [hd] at h; simp at h
  | some e => rfl

theorem checkedAt_setChecked_ne (d : Doc) (l l' : Loc) (b : Bool) (h : l ≠ l') :
    checkedAt (setChecked d l b) l' = checkedAt d l' := by
  unfold checkedAt setChecked
  rw [elemAt?_modifyLoc_ne d l l' _ h]

theorem readCounter_updateCounter (d : Doc) (w : Widget)
    (h : (elemAt? d w.counterLoc).isSome) :
    readCounter (updateCounter d w) w =
      some (counterText (checkedCount d w.cbLocs)) := by
  unfold readCounter updateCounter setText
  rw [elemAt?_modifyLoc_self]
  cases hd : elemAt? d w.counterLoc with
  | none => rw [hd] at h; simp at h
  | some e => rfl

theorem checkedCount_updateCounter (d : Doc) (w : Widget) (locs : List Loc) :
    checkedCount (updateCounter d w) locs = checkedCount d locs :=
  checkedCount_setText d w.counterLoc _ locs

theorem findIdxFrom_eq_some (p : Elem → Bool) (l : List Elem) (i : Nat)
    (h : findIdxFrom p l = some i) :
    ∃ e, l.get? i = some e ∧ p e = true := by
  induction l generalizing i with
  | nil => simp [findIdxFrom] at h
  | cons e rest ih =>
    by_cases hp : p e
    · simp [findIdxFrom, hp] at h
      subst h
      exact ⟨e, rfl, hp⟩
    · simp [findIdxFrom, hp] at h
      obtain ⟨j, hj, hji⟩ := h
      subst hji
      exact ih j hj

theorem findIdxFrom_eq_none_iff (p : Elem → Bool) (l : List Elem) :
    findIdxFrom p l = none ↔ ∀ e ∈ l, p e = false := by
  induction l with
  | nil => simp [findIdxFrom]
  | cons e rest ih =>
    by_cases hp : p e
    · simp [findIdxFrom, hp]
    · simp [findIdxFrom, hp, ih]

/-! ### The select-all loop -/

theorem isSome_elemAt?_setChecked (d : Doc) (l l' : Loc) (b : Bool) :
    (elemAt? (setChecked d l b) l').isSome = (elemAt? d l').isSome :=
  isSome_elemAt?_modifyLoc d l l' _

theorem isSome_foldl_setChecked (locs : List Loc) (v : Bool) (d : Doc) (l : Loc) :
    (elemAt? (locs.foldl (fun acc x => setChecked acc x v) d) l).isSome =
      (elemAt? d l).isSome := by
  induction locs generalizing d with
  | nil => rfl
  | cons e rest ih =>
    simp only [List.foldl_cons]
    rw [ih, isSome_elemAt?_setChecked]

theorem checkedAt_foldl_setChecked_not_mem (locs : List Loc) (v : Bool) (d : Doc)
    (l : Loc) (h : l ∉ locs) :
    checkedAt (locs.foldl (fun acc x => setChecked acc x v) d) l = checkedAt d l := by
  induction locs generalizing d with
  | nil => rfl
  | cons e rest ih =>
    simp only [List.foldl_cons]
    rw [ih _ (fun hm => h (List.mem_cons_of_mem e hm))]
    exact checkedAt_setChecked_ne d e l v (fun he => h (he ▸ List.mem_cons_self e rest))

theorem checkedAt_foldl_setChecked_mem (locs : List Loc) (v : Bool) (d : Doc)
    (l : Loc) (hs : (elemAt? d l).isSome = true) (h : l ∈ locs) :
    checkedAt (locs.foldl (fun acc x => setChecked acc x v) d) l = v := by
  induction locs generalizing d with
  | nil => simp at h
  | cons e rest ih =>
    simp only [List.foldl_cons]
    by_cases hm : l ∈ rest
    · exact ih (setChecked d e v) (by rw [isSome_elemAt?_setChecked]; exact hs) hm
    · have hle : l = e := by
        rcases List.mem_cons.mp h with h1 | h2
        · exact h1
        · exact absurd h2 hm
      subst hle
      rw [checkedAt_foldl_setChecked_not_mem rest v _ l hm]
      exact checkedAt_setChecked_self d l v hs

/-! ### The initialization / event-loop invariant -/

/-- The widget's running invariant: its counter reference is live, and the
displayed text is the three-way function of the current snapshot states. -/
def Inv (d : Doc) (w : Widget) : Prop :=
  (elemAt? d w.counterLoc).isSome = true ∧
  readCounter d w = some (counterText (checkedCount d w.cbLocs))

theorem inv_updateCounter (d : Doc) (w : Widget)
    (h : (elemAt? d w.counterLoc).isSome = true) :
    Inv (updateCounter d w) w := by
  refine ⟨by rw [updateCounter, setText, isSome_elemAt?_modifyLoc]; exact h, ?_⟩
  rw [readCounter_updateCounter d w h, checkedCount_updateCounter]

theorem findCounterLoc_isSome (d : Doc) (loc : Loc)
    (h : findCounterLoc d = some loc) :
    (elemAt? d loc).isSome = true := by
  unfold findCounterLoc at h
  cases h1 : findIdxFrom (fun e => hasClass e "selected-count") d.pre with
  | some i =>
    rw [h1] at h
    cases h
    obtain ⟨e, he, _⟩ := findIdxFrom_eq_some _ _ _ h1
    show (d.pre.get? i).isSome = true
    rw [he]
    rfl
  | none =>
    rw [h1] at h
    cases h2 : findIdxFrom (fun e => hasClass e "selected-count") d.formChildren with
    | some i =>
      rw [h2] at h
      cases h
      obtain ⟨e, he, _⟩ := findIdxFrom_eq_some _ _ _ h2
      show (d.formChildren.get? i).isSome = true
      rw [he]
      rfl
    | none =>
      rw [h2] at h
      cases h3 : findIdxFrom (fun e => hasClass e "selected-count") d.post with
      | some i =>
        rw [h3] at h
        cases h
        obtain ⟨e, he, _⟩ := findIdxFrom_eq_some _ _ _ h3
        show (d.post.get? i).isSome = true
        rw [he]
        rfl
      | none => rw [h3] at h; cases h

theorem init_inv (d : Doc) (w : Widget) (h : (init d).2 = some w) :
    Inv (init d).1 w := by
  unfold init at h ⊢
  by_cases hf : d.hasForm
  · simp only [hf, if_true] at h ⊢
    cases hc : findCounterLoc d with
    | some loc =>
      simp only [hc] at h ⊢
      cases h
      exact inv_updateCounter d _ (findCounterLoc_isSome d loc hc)
    | none =>
      simp only [hc] at h ⊢
      cases h
      apply inv_updateCounter
      show ((d.formChildren ++ [newCounterElem]).get? d.formChildren.length).isSome = true
      rw [get?_append_length]
      rfl
  · simp only [hf, if_false] at h
    cases h

theorem step_inv (d : Doc) (w : Widget) (ev : Ev) (h : Inv d w) :
    Inv (step w d ev) w := by
  cases ev with
  | toggle i b =>
    simp only [step]
    cases hg : w.cbLocs.get? i with
    | none => exact h
    | some loc =>
      apply inv_updateCounter
      rw [isSome_elemAt?_setChecked]
      exact h.1
  | selectAllToggle b =>
    simp only [step]
    cases hs : w.selectAllLoc with
    | none => exact h
    | some loc =>
      simp only [selectAllHandler]
      apply inv_updateCounter
      rw [isSome_foldl_setChecked, isSome_elemAt?_setChecked]
      exact h.1

theorem run_inv (d : Doc) (w : Widget) (evs : List Ev) (h : Inv d w) :
    Inv (run w d evs) w := by
  induction evs generalizing d with
  | nil => exact h
  | cons ev rest ih => exact ih (step w d ev) (step_inv d w ev h)

theorem modifyLoc_modifyLoc (d : Doc) (l : Loc) (f g : Elem → Elem) :
    modifyLoc (modifyLoc d l f) l g = modifyLoc d l (fun e => g (f e)) := by
  cases l <;> simp [modifyLoc, modifyAt_modifyAt]

theorem setText_setText (d : Doc) (l : Loc) (s1 s2 : String) :
    setText (setText d l s1) l s2 = setText d l s2 := by
  unfold setText
  rw [modifyLoc_modifyLoc]

/-! ### Concrete fixtures (documents as the host page renders them) -/

/-- An unchecked `log_ids` checkbox. -/
def cbElem : Elem :=
  { tag := "input"
    className := ""
    idAttr := ""
    typeAttr := "checkbox"
    nameAttr := "log_ids"
    checked := false
    textContent := ""
    styleMarginTop := ""
    styleFontSize := ""
    styleColor := "" }

/-- A pre-checked `log_ids` checkbox. -/
def cbElemChecked : Elem :=
  { cbElem with checked := true }

/-- The optional select-all checkbox `#select_all_logs`. -/
def saElem : Elem :=
  { cbElem with idAttr := "select_all_logs", nameAttr := "" }

/-- A server-rendered `.selected-count` node. -/
def scElem : Elem :=
  { tag := "div"
    className := "selected-count"
    idAttr := ""
    typeAttr := ""
    nameAttr := ""
    checked := false
    textContent := ""
    styleMarginTop := ""
    styleFontSize := ""
    styleColor := "" }

/-- A history page: select-all control, three checkboxes (two pre-checked),
and a server-rendered counter node inside the form. -/
def demoDoc : Doc :=
  { hasForm := true
    pre := []
    formChildren := [saElem, cbElemChecked, cbElem, cbElemChecked, scElem]
    post := [] }

/-- The widget `init demoDoc` produces. -/
def demoWidget : Widget :=
  ⟨[Loc.form 1, Loc.form 2, Loc.form 3], some (Loc.form 0), Loc.form 4⟩

/-! ### The claims -/

/-- C1: for every snapshot of checkbox states, Recompute sets the counter
node's text to exactly one of three strings determined solely by the number
of checked checkboxes: the "none" string at count 0, the singular string at
count 1, and the plural string with the decimal count substituted at 2 or
more. -/
theorem recompute_three_way_rule (d : Doc) (w : Widget)
    (h : (elemAt? d w.counterLoc).isSome = true) :
    readCounter (updateCounter d w) w =
      some (if checkedCount d w.cbLocs = 0 then "Ни одной записи не выбрано."
        else if checkedCount d w.cbLocs = 1 then "Выбрана 1 запись для включения в ТЗ."
        else "Выбрано " ++ toString (checkedCount d w.cbLocs)
          ++ " записей для включения в ТЗ.") := by
  rw [readCounter_updateCounter d w h]
  rfl

theorem recompute_three_way_rule_witness :
    (elemAt? demoDoc demoWidget.counterLoc).isSome = true ∧
    readCounter (updateCounter demoDoc demoWidget) demoWidget =
      some (if checkedCount demoDoc demoWidget.cbLocs = 0 then "Ни одной записи не выбрано."
        else if checkedCount demoDoc demoWidget.cbLocs = 1 then "Выбрана 1 запись для включения в ТЗ."
        else "Выбрано " ++ toString (checkedCount demoDoc demoWidget.cbLocs)
          ++ " записей для включения в ТЗ.") :=
  ⟨rfl, recompute_three_way_rule demoDoc demoWidget rfl⟩

/-- C4: on a page with no `.history-form` element, initialization mutates
nothing, registers no listeners (no widget is produced), and exits silently. -/
theorem no_form_silent_no_op (d : Doc) (h : d.hasForm = false) :
    init d = (d, none) := by
  unfold init
  rw [h]
  simp

/-- A page without the history form. -/
def otherPageDoc : Doc :=
  { hasForm := false, pre := [cbElem, scElem], formChildren := [], post := [cbElem] }

theorem no_form_silent_no_op_witness :
    otherPageDoc.hasForm = false ∧ init otherPageDoc = (otherPageDoc, none) :=
  ⟨rfl, no_form_silent_no_op otherPageDoc rfl⟩

/-- C7: Recompute is idempotent — with no intervening state change, a second
invocation leaves the whole document, in particular the counter node's text,
exactly as the first left it. -/
theorem recompute_idempotent (d : Doc) (w : Widget) :
    updateCounter (updateCounter d w) w = updateCounter d w := by
  unfold updateCounter
  rw [checkedCount_setText, setText_setText]

/-- C9: Recompute mutates only the counter node's text content: every
element's `checked` state (each snapshot checkbox's and the select-all
control's included) is unchanged, and every element other than the counter
node is untouched entirely. -/
theorem recompute_frame (d : Doc) (w : Widget) :
    (∀ l, checkedAt (updateCounter d w) l = checkedAt d l) ∧
    (∀ l, l ≠ w.counterLoc → elemAt? (updateCounter d w) l = elemAt? d l) := by
  constructor
  · intro l
    exact checkedAt_setText d w.counterLoc l _
  · intro l hl
    exact elemAt?_modifyLoc_ne d w.counterLoc l _ (fun he => hl he.symm)

/-- C2: a select-all state change sets every snapshot checkbox to the
control's new value and invokes Recompute exactly once (the ghost invocation
count of the handler is 1, not the number of checkboxes). -/
theorem select_all_sets_every_checkbox_once (d : Doc) (w : Widget) (loc : Loc) (b : Bool)
    (hsa : w.selectAllLoc = some loc)
    (hloc : (elemAt? d loc).isSome = true)
    (hcb : ∀ l ∈ w.cbLocs, (elemAt? d l).isSome = true) :
    (∀ l ∈ w.cbLocs, checkedAt (step w d (Ev.selectAllToggle b)) l = b) ∧
    (selectAllHandler (setChecked d loc b) w loc).2 = 1 := by
  refine ⟨?_, rfl⟩
  intro l hl
  simp only [step, hsa, selectAllHandler]
  have hv : checkedAt (setChecked d loc b) loc = b :=
    checkedAt_setChecked_self d loc b hloc
  rw [hv]
  unfold updateCounter
  rw [checkedAt_setText]
  exact checkedAt_foldl_setChecked_mem w.cbLocs b (setChecked d loc b) l
    (by rw [isSome_elemAt?_setChecked]; exact hcb l hl) hl

theorem select_all_sets_every_checkbox_once_witness :
    demoWidget.selectAllLoc = some (Loc.form 0) ∧
    (elemAt? demoDoc (Loc.form 0)).isSome = true ∧
    (∀ l ∈ demoWidget.cbLocs, (elemAt? demoDoc l).isSome = true) ∧
    ((∀ l ∈ demoWidget.cbLocs,
        checkedAt (step demoWidget demoDoc (Ev.selectAllToggle true)) l = true) ∧
      (selectAllHandler (setChecked demoDoc (Loc.form 0) true) demoWidget (Loc.form 0)).2 = 1) :=
  ⟨rfl, rfl, by decide,
    select_all_sets_every_checkbox_once demoDoc demoWidget (Loc.form 0) true rfl rfl (by decide)⟩

theorem pre_modifyLoc_length (d : Doc) (l : Loc) (f : Elem → Elem) :
    (modifyLoc d l f).pre.length = d.pre.length := by
  cases l <;> simp [modifyLoc, modifyAt_length]

theorem formChildren_modifyLoc_length (d : Doc) (l : Loc) (f : Elem → Elem) :
    (modifyLoc d l f).formChildren.length = d.formChildren.length := by
  cases l <;> simp [modifyLoc, modifyAt_length]

theorem post_modifyLoc_length (d : Doc) (l : Loc) (f : Elem → Elem) :
    (modifyLoc d l f).post.length = d.post.length := by
  cases l <;> simp [modifyLoc, modifyAt_length]

theorem findCounterLoc_eq_none_iff (d : Doc) :
    findCounterLoc d = none ↔
      ∀ e ∈ d.pre ++ d.formChildren ++ d.post, hasClass e "selected-count" = false := by
  have hsplit : findCounterLoc d = none ↔
      (findIdxFrom (fun e => hasClass e "selected-count") d.pre = none ∧
       findIdxFrom (fun e => hasClass e "selected-count") d.formChildren = none ∧
       findIdxFrom (fun e => hasClass e "selected-count") d.post = none) := by
    unfold findCounterLoc
    cases findIdxFrom (fun e => hasClass e "selected-count") d.pre <;>
      cases findIdxFrom (fun e => hasClass e "selected-count") d.formChildren <;>
        cases findIdxFrom (fun e => hasClass e "selected-count") d.post <;> simp
  rw [hsplit, findIdxFrom_eq_none_iff, findIdxFrom_eq_none_iff, findIdxFrom_eq_none_iff]
  constructor
  · rintro ⟨h1, h2, h3⟩ e he
    rcases List.mem_append.mp he with h | h
    · rcases List.mem_append.mp h with h | h
      exacts [h1 e h, h2 e h]
    · exact h3 e h
  · intro h
    refine ⟨fun e he => h e ?_, fun e he => h e ?_, fun e he => h e ?_⟩ <;>
      simp [List.mem_append, he]

theorem findCounterLoc_eq_some_mem (d : Doc) (loc : Loc)
    (h : findCounterLoc d = some loc) :
    ∃ e ∈ d.pre ++ d.formChildren ++ d.post, hasClass e "selected-count" = true := by
  unfold findCounterLoc at h
  cases h1 : findIdxFrom (fun e => hasClass e "selected-count") d.pre with
  | some i =>
    obtain ⟨e, he, hp⟩ := findIdxFrom_eq_some _ _ _ h1
    exact ⟨e, by simp [List.mem_append, List.get?_mem he], hp⟩
  | none =>
    rw [h1] at h
    cases h2 : findIdxFrom (fun e => hasClass e "selected-count") d.formChildren with
    | some i =>
      obtain ⟨e, he, hp⟩ := findIdxFrom_eq_some _ _ _ h2
      exact ⟨e, by simp [List.mem_append, List.get?_mem he], hp⟩
    | none =>
      rw [h2] at h
      cases h3 : findIdxFrom (fun e => hasClass e "selected-count") d.post with
      | some i =>
        obtain ⟨e, he, hp⟩ := findIdxFrom_eq_some _ _ _ h3
        exact ⟨e, by simp [List.mem_append, List.get?_mem he], hp⟩
      | none => rw [h3] at h; cases h

/-- A page whose only `.selected-count` node sits outside the history form. -/
def strayCounterDoc : Doc :=
  { hasForm := true, pre := [scElem], formChildren := [cbElem], post := [] }

/-- C3 counterexample: on `strayCounterDoc` no element inside the form
carries `.selected-count`, yet initialization constructs nothing (the form's
children are unchanged) and instead adopts the node outside the form — the
lookup is `document.querySelector`, not a form-scoped search, refuting the
claim as stated. -/
theorem counter_search_not_form_scoped :
    (∀ e ∈ strayCounterDoc.formChildren, hasClass e "selected-count" = false) ∧
    (init strayCounterDoc).1.formChildren = strayCounterDoc.formChildren ∧
    (init strayCounterDoc).2 = some ⟨[Loc.form 0], none, Loc.pre 0⟩ := by
  refine ⟨?_, rfl, rfl⟩
  decide

/-- C3 amended: at initialization the counter display node is located by
searching the whole document (not just the form) for an element carrying the
marker class `.selected-count`; only if no such element exists anywhere in
the document is a new one constructed and appended to the form. -/
theorem counter_search_document_wide (d : Doc) (h : d.hasForm = true) :
    ((∀ e ∈ d.pre ++ d.formChildren ++ d.post, hasClass e "selected-count" = false) →
      (init d).1.formChildren.length = d.formChildren.length + 1) ∧
    ((∃ e ∈ d.pre ++ d.formChildren ++ d.post, hasClass e "selected-count" = true) →
      (init d).1.formChildren.length = d.formChildren.length) := by
  constructor
  · intro hnone
    have hc : findCounterLoc d = none := (findCounterLoc_eq_none_iff d).mpr hnone
    unfold init
    simp only [h, if_true, hc]
    unfold updateCounter setText
    rw [formChildren_modifyLoc_length]
    simp
  · rintro ⟨e, he, hp⟩
    cases hc : findCounterLoc d with
    | none =>
      have := (findCounterLoc_eq_none_iff d).mp hc e he
      rw [this] at hp
      cases hp
    | some loc =>
      unfold init
      simp only [h, if_true, hc]
      unfold updateCounter setText
      rw [formChildren_modifyLoc_length]

theorem counter_search_document_wide_witness :
    demoDoc.hasForm = true ∧
    (((∀ e ∈ demoDoc.pre ++ demoDoc.formChildren ++ demoDoc.post,
        hasClass e "selected-count" = false) →
      (init demoDoc).1.formChildren.length = demoDoc.formChildren.length + 1) ∧
    ((∃ e ∈ demoDoc.pre ++ demoDoc.formChildren ++ demoDoc.post,
        hasClass e "selected-count" = true) →
      (init demoDoc).1.formChildren.length = demoDoc.formChildren.length)) :=
  ⟨rfl, counter_search_document_wide demoDoc rfl⟩

theorem init_create_eq (d : Doc) (hf : d.hasForm = true)
    (hc : findCounterLoc d = none) :
    init d =
      (updateCounter { d with formChildren := d.formChildren ++ [newCounterElem] }
          ⟨checkboxLocs d, findSelectAll d, Loc.form d.formChildren.length⟩,
        some ⟨checkboxLocs d, findSelectAll d, Loc.form d.formChildren.length⟩) := by
  unfold init
  simp only [hf, if_true, hc]

/-- C5: when no `.selected-count` element exists at initialization, exactly
one counter node is created — carrying the marker class and the three inline
styles of the create branch — and it is appended as the last child of the
form; the regions outside the form are untouched. -/
theorem counter_created_when_absent (d : Doc) (hf : d.hasForm = true)
    (hnone : ∀ e ∈ d.pre ++ d.formChildren ++ d.post, hasClass e "selected-count" = false) :
    ∃ e, (init d).1.formChildren = d.formChildren ++ [e] ∧
      e.className = "selected-count" ∧
      e.styleMarginTop = "0.4rem" ∧
      e.styleFontSize = "0.8rem" ∧
      e.styleColor = "rgba(209, 213, 219, 0.9)" ∧
      (init d).1.pre = d.pre ∧ (init d).1.post = d.post := by
  have hc : findCounterLoc d = none := (findCounterLoc_eq_none_iff d).mpr hnone
  rw [init_create_eq d hf hc]
  refine ⟨{ newCounterElem with
      textContent := counterText (checkedCount
        { d with formChildren := d.formChildren ++ [newCounterElem] }
        (checkboxLocs d)) }, ?_, rfl, rfl, rfl, rfl, rfl, rfl⟩
  show modifyAt (d.formChildren ++ [newCounterElem]) d.formChildren.length _ = _
  rw [modifyAt_append_length]

/-- A history page with one unchecked checkbox and no counter node. -/
def plainFormDoc : Doc :=
  { hasForm := true, pre := [], formChildren := [cbElem], post := [] }

theorem counter_created_when_absent_witness :
    plainFormDoc.hasForm = true ∧
    (∀ e ∈ plainFormDoc.pre ++ plainFormDoc.formChildren ++ plainFormDoc.post,
      hasClass e "selected-count" = false) ∧
    (∃ e, (init plainFormDoc).1.formChildren = plainFormDoc.formChildren ++ [e] ∧
      e.className = "selected-count" ∧
      e.styleMarginTop = "0.4rem" ∧
      e.styleFontSize = "0.8rem" ∧
      e.styleColor = "rgba(209, 213, 219, 0.9)" ∧
      (init plainFormDoc).1.pre = plainFormDoc.pre ∧
      (init plainFormDoc).1.post = plainFormDoc.post) :=
  ⟨rfl, by decide, counter_created_when_absent plainFormDoc rfl (by decide)⟩

theorem checkboxLocs_eq_nil (d : Doc)
    (h : ∀ e ∈ d.formChildren, isLogIdsCheckbox e = false) :
    checkboxLocs d = [] := by
  unfold checkboxLocs
  rw [List.map_eq_nil_iff]
  rw [List.filter_eq_nil_iff]
  intro i _
  cases hg : d.formChildren.get? i with
  | none => simp [hg]
  | some e => simp [hg, h e (List.get?_mem hg)]

/-- C8: on a page with the history form but zero `log_ids` checkboxes and no
select-all control, initialization still completes: the snapshot is empty,
the select-all lookup yields nothing (and causes no error), the counter node
is created when absent, and it displays the zero-count string. -/
theorem empty_snapshot_init_completes (d : Doc) (hf : d.hasForm = true)
    (hcb : ∀ e ∈ d.formChildren, isLogIdsCheckbox e = false)
    (hsa : ∀ e ∈ d.formChildren, (e.idAttr == "select_all_logs") = false)
    (hsc : ∀ e ∈ d.pre ++ d.formChildren ++ d.post, hasClass e "selected-count" = false) :
    ∃ w, (init d).2 = some w ∧ w.cbLocs = [] ∧ w.selectAllLoc = none ∧
      (init d).1.formChildren.length = d.formChildren.length + 1 ∧
      readCounter (init d).1 w = some "Ни одной записи не выбрано." := by
  have hc : findCounterLoc d = none := (findCounterLoc_eq_none_iff d).mpr hsc
  have hcbs : checkboxLocs d = [] := checkboxLocs_eq_nil d hcb
  have hsas : findSelectAll d = none := by
    unfold findSelectAll
    rw [(findIdxFrom_eq_none_iff _ _).mpr hsa]
    rfl
  unfold init
  simp only [hf, if_true, hc]
  refine ⟨_, rfl, hcbs, hsas, ?_, ?_⟩
  · unfold updateCounter setText
    rw [formChildren_modifyLoc_length]
    simp
  · rw [readCounter_updateCounter]
    · rw [hcbs]
      rfl
    · show ((d.formChildren ++ [newCounterElem]).get? d.formChildren.length).isSome = true
      rw [get?_append_length]
      rfl

/-- A history page whose form is empty. -/
def emptyFormDoc : Doc :=
  { hasForm := true, pre := [], formChildren := [], post := [] }

theorem empty_snapshot_init_completes_witness :
    emptyFormDoc.hasForm = true ∧
    (∀ e ∈ emptyFormDoc.formChildren, isLogIdsCheckbox e = false) ∧
    (∀ e ∈ emptyFormDoc.formChildren, (e.idAttr == "select_all_logs") = false) ∧
    (∀ e ∈ emptyFormDoc.pre ++ emptyFormDoc.formChildren ++ emptyFormDoc.post,
      hasClass e "selected-count" = false) ∧
    (∃ w, (init emptyFormDoc).2 = some w ∧ w.cbLocs = [] ∧ w.selectAllLoc = none ∧
      (init emptyFormDoc).1.formChildren.length = emptyFormDoc.formChildren.length + 1 ∧
      readCounter (init emptyFormDoc).1 w = some "Ни одной записи не выбрано.") :=
  ⟨rfl, by decide, by decide, by decide,
    empty_snapshot_init_completes emptyFormDoc rfl (by decide) (by decide) (by decide)⟩

/-- C10: an existing `.selected-count` element is reused exactly as found:
its class and inline styles are not touched, no element is added to or
removed from any region, and every element other than the adopted node is
untouched entirely — styling and appending happen only on the create
branch. -/
theorem existing_counter_reused_as_found (d : Doc) (loc : Loc) (hf : d.hasForm = true)
    (hfound : findCounterLoc d = some loc) :
    (∃ w, (init d).2 = some w ∧ w.counterLoc = loc) ∧
    (init d).1.pre.length = d.pre.length ∧
    (init d).1.formChildren.length = d.formChildren.length ∧
    (init d).1.post.length = d.post.length ∧
    (∀ l, l ≠ loc → elemAt? (init d).1 l = elemAt? d l) ∧
    (elemAt? (init d).1 loc).map
        (fun e => (e.className, e.styleMarginTop, e.styleFontSize, e.styleColor, e.checked)) =
      (elemAt? d loc).map
        (fun e => (e.className, e.styleMarginTop, e.styleFontSize, e.styleColor, e.checked)) := by
  unfold init
  simp only [hf, if_true, hfound]
  refine ⟨⟨_, rfl, rfl⟩, ?_, ?_, ?_, ?_, ?_⟩
  · exact pre_modifyLoc_length d loc _
  · exact formChildren_modifyLoc_length d loc _
  · exact post_modifyLoc_length d loc _
  · intro l hl
    exact elemAt?_modifyLoc_ne d loc l _ (fun he => hl he.symm)
  · show (elemAt? (modifyLoc d loc _) loc).map _ = _
    rw [elemAt?_modifyLoc_self]
    cases elemAt? d loc <;> rfl

theorem existing_counter_reused_as_found_witness :
    demoDoc.hasForm = true ∧
    findCounterLoc demoDoc = some (Loc.form 4) ∧
    ((∃ w, (init demoDoc).2 = some w ∧ w.counterLoc = Loc.form 4) ∧
    (init demoDoc).1.pre.length = demoDoc.pre.length ∧
    (init demoDoc).1.formChildren.length = demoDoc.formChildren.length ∧
    (init demoDoc).1.post.length = demoDoc.post.length ∧
    (∀ l, l ≠ Loc.form 4 → elemAt? (init demoDoc).1 l = elemAt? demoDoc l) ∧
    (elemAt? (init demoDoc).1 (Loc.form 4)).map
        (fun e => (e.className, e.styleMarginTop, e.styleFontSize, e.styleColor, e.checked)) =
      (elemAt? demoDoc (Loc.form 4)).map
        (fun e => (e.className, e.styleMarginTop, e.styleFontSize, e.styleColor, e.checked))) :=
  ⟨rfl, rfl, existing_counter_reused_as_found demoDoc (Loc.form 4) rfl rfl⟩

/-- C6: the displayed text is always the three-way function of the current
snapshot states — after initialization (which invokes Recompute once) and
after any sequence of state-changing events (individual toggles and
select-all toggles), the counter's text equals `counterText` of the current
checked count. -/
theorem counter_text_always_current (d : Doc) (w : Widget) (evs : List Ev)
    (h : (init d).2 = some w) :
    readCounter (run w (init d).1 evs) w =
      some (counterText (checkedCount (run w (init d).1 evs) w.cbLocs)) :=
  (run_inv (init d).1 w evs (init_inv d w h)).2

theorem counter_text_always_current_witness :
    (init demoDoc).2 = some demoWidget ∧
    readCounter
        (run demoWidget (init demoDoc).1
          [Ev.toggle 0 false, Ev.selectAllToggle true, Ev.toggle 2 false])
        demoWidget =
      some (counterText (checkedCount
        (run demoWidget (init demoDoc).1
          [Ev.toggle 0 false, Ev.selectAllToggle true, Ev.toggle 2 false])
        demoWidget.cbLocs)) :=
  ⟨rfl, counter_text_always_current demoDoc demoWidget
    [Ev.toggle 0 false, Ev.selectAllToggle true, Ev.toggle 2 false] rfl⟩

